import Mathlib

/-!
Verification of the speech-analysis core of the `dubhacks` repository
(`backend/api/analyzePresentation.py`, `backend/api/analyzeExercise.py`,
`backend/api/main.py`).

The Python code is shallowly embedded: strings are Lean `String`s,
Python `float` arithmetic over the values relevant to the claims is
modelled with `ℚ`, Python dicts are association lists, and fallible
operations (`KeyError`, `ZeroDivisionError`) return `Except`.
External collaborators (AWS Transcribe, AWS Comprehend, NLTK's punkt
model) are not repository code; where a scoring function consumes
their output, that output is taken as an explicit argument, as the
spec requires ("the external sentiment call ... must be injected").
-/

namespace DubHacks

/-! ## Python string primitives -/

/-- ASCII lower-casing of one character, modelling `str.lower` on the
ASCII inputs used by the analysis code. -/
def asciiLower (c : Char) : Char :=
  if 'A' ≤ c ∧ c ≤ 'Z' then Char.ofNat (c.toNat + 32) else c

/-- `str.lower` (ASCII fragment). -/
def strLower (s : String) : String :=
  String.mk (s.data.map asciiLower)

/-- Python whitespace characters (ASCII fragment of `str.split` /
`str.strip` whitespace). -/
def isPySpace (c : Char) : Bool :=
  c = ' ' ∨ c = '\t' ∨ c = '\n' ∨ c = '\r' ∨ c = '\x0b' ∨ c = '\x0c'

/-- Does `pat` occur at the head of `l`? -/
def leadsWith : List Char → List Char → Bool
  | [], _ => true
  | _ :: _, [] => false
  | a :: as, b :: bs => a = b && leadsWith as bs

/-- Non-overlapping left-to-right substring count, the semantics of
Python `str.count` (and of `len(re.findall(p, s))` for an all-literal
pattern `p`).  After a match the scan resumes past the matched text.
Structural recursion on a fuel argument so the kernel can evaluate it. -/
def countOccsAux (pat : List Char) : ℕ → List Char → ℕ
  | 0, _ => 0
  | _ + 1, [] => 0
  | fuel + 1, c :: rest =>
    if leadsWith pat (c :: rest) then
      1 + countOccsAux pat fuel (rest.drop (pat.length - 1))
    else
      countOccsAux pat fuel rest

/-- `text.count(pat)` for a nonempty literal `pat`. -/
def strCount (text pat : String) : ℕ :=
  countOccsAux pat.data text.data.length text.data

/-- Is `pat` a substring of `l`?  (Python `pat in l`.) -/
def hasSub (pat : List Char) : List Char → Bool
  | [] => pat.isEmpty
  | c :: rest => leadsWith pat (c :: rest) || hasSub pat rest

/-- Python `pat in hay` for strings. -/
def strHasSub (hay pat : String) : Bool :=
  hasSub pat.data hay.data

/-- Auxiliary for `pySplit`: whitespace-run splitting with an accumulator. -/
def splitWsAux : List Char → List Char → List (List Char)
  | [], acc => if acc.isEmpty then [] else [acc.reverse]
  | c :: rest, acc =>
    if isPySpace c then
      if acc.isEmpty then splitWsAux rest [] else acc.reverse :: splitWsAux rest []
    else
      splitWsAux rest (c :: acc)

/-- Python `str.split()` with no separator: split on whitespace runs,
ignoring leading and trailing whitespace. -/
def pySplit (s : String) : List String :=
  (splitWsAux s.data []).map String.mk

/-- Python `str.strip()` (ASCII whitespace fragment). -/
def pyStrip (s : String) : String :=
  String.mk (((s.data.dropWhile isPySpace).reverse.dropWhile isPySpace).reverse)

/-- Lookup with a default in an association list, modelling
`dict.get(key, 0)` for the sentiment-score dicts. -/
def sgetD (l : List (String × ℚ)) (k : String) : ℚ :=
  match l.lookup k with
  | some v => v
  | none => 0

/-- Lookup with an explicit default, modelling `dict.get(key, d)`. -/
def qgetD (l : List (String × ℚ)) (k : String) (d : ℚ) : ℚ :=
  match l.lookup k with
  | some v => v
  | none => d

/-! ## Rounding

Python's `round(x, 1)` uses round-half-to-even; the analysis code
rounds paces and average sentence lengths to one decimal. -/

/-- Round-half-to-even to an integer. -/
def pyRoundHalfEven (q : ℚ) : ℤ :=
  let f := ⌊q⌋
  let r := q - f
  if r < 1/2 then f
  else if 1/2 < r then f + 1
  else if f % 2 = 0 then f else f + 1

/-- Python `round(q, 1)`. -/
def round1 (q : ℚ) : ℚ :=
  (pyRoundHalfEven (q * 10) : ℚ) / 10

/-! ## `count_filler_words` (analyzePresentation.py lines 33-48)

The source builds each pattern as `r"\\b" + re.escape(f) + r"\\b"`.
In a Python *raw* string, `r"\\b"` is the two characters `\` `\`
followed by `b`; as a regular expression `\\` matches one literal
backslash and `b` a literal letter, so the pattern matches the literal
text `\b<filler>\b` — not a word boundary.  `re.escape` only
backslash-escapes the space in `"you know"`, which the regex engine
also treats as that literal character.  Hence counting matches of the
pattern equals counting the literal substring `"\b" ++ f ++ "\b"`.
The Lean string literal `"\\b"` below is exactly that two-character
text (backslash, `b`). -/

def default_fillers : List String := ["um", "uh", "like", "you know", "so", "actually"]

/-- The literal text the botched regex actually matches. -/
def fillerRegexLiteral (f : String) : String := "\\b" ++ f ++ "\\b"

structure FillerReport where
  total : ℕ
  per_filler : List (String × ℕ)
deriving DecidableEq, Repr

/-- The `for f in fillers` loop of `count_filler_words`, building the
per-filler counts in order while accumulating the running total. -/
def fillerLoop (text_lower : String) : List String → List (String × ℕ) × ℕ
  | [] => ([], 0)
  | f :: fs =>
    let c := strCount text_lower (fillerRegexLiteral f)
    let rest := fillerLoop text_lower fs
    ((f, c) :: rest.1, c + rest.2)

/-- `count_filler_words` (analyzePresentation.py lines 33-48). -/
def count_filler_words (text : String) : FillerReport :=
  let p := fillerLoop (strLower text) default_fillers
  { total := p.2, per_filler := p.1 }

/-! ## `calculate_pace` (analyzePresentation.py lines 50-59) -/

/-- The `else` branch of `calculate_pace`: assume 150 wpm, derive the
duration from the word count, then divide by it.  When the word count
is 0 the derived duration is 0 and the final division raises
`ZeroDivisionError` in Python. -/
def calcPaceFallback (word_count : ℕ) : Except String ℚ :=
  let duration : ℚ := ((word_count : ℚ) / 150) * 60
  if duration = 0 then
    Except.error "ZeroDivisionError: float division by zero"
  else
    Except.ok (round1 ((word_count : ℚ) / duration * 60))

/-- `calculate_pace` (analyzePresentation.py lines 50-59).  A `none`
duration models Python `None`; the guard `duration_seconds and
duration_seconds > 0` is truthiness (nonzero) conjoined with
positivity, which is equivalent to `0 < d`. -/
def calculate_pace (text : String) (duration_seconds : Option ℚ) : Except String ℚ :=
  let word_count : ℕ := (pySplit text).length
  match duration_seconds with
  | some d =>
    if 0 < d then Except.ok (round1 ((word_count : ℚ) / d * 60))
    else calcPaceFallback word_count
  | none => calcPaceFallback word_count

/-! ## `analyze_tone` (analyzePresentation.py lines 61-80)

The AWS Comprehend call is an external collaborator; per the spec the
sentiment distribution is injected.  The classification of a given
`SentimentScore` dict (source lines 64-78) is pure and embedded here.
The dict keys are those Comprehend returns and the source reads:
"Neutral", "Positive", "Negative", "Mixed". -/

structure ToneReport where
  raw : List (String × ℚ)
  classification : String

/-- The classification logic of `analyze_tone` (lines 66-78). -/
def toneClassification (scores : List (String × ℚ)) : String :=
  let neutral := sgetD scores "Neutral"
  let positive := sgetD scores "Positive"
  let negative := sgetD scores "Negative"
  let mixed := sgetD scores "Mixed"
  if 0.60 ≤ neutral then "objective"
  else if 0.15 < max positive (max negative mixed) - neutral then "subjective"
  else "balanced"

/-- `analyze_tone` with the Comprehend response injected. -/
def analyze_tone (scores : List (String × ℚ)) : ToneReport :=
  { raw := scores, classification := toneClassification scores }

/-! ## Sentence tokenization

Modelled from the spec: NLTK's `sent_tokenize` (the pretrained punkt
model) is an external library, not repository code; spec section 4.3
says sentences are split "on sentence-terminal punctuation".  A
sentence extends up to and including a run of terminal punctuation
(`.`, `!`, `?`); surrounding whitespace is not part of a sentence and
whitespace-only fragments are dropped. -/

def sentTerminators : List Char := ['.', '!', '?']

/-- Scan characters, flushing a sentence when a terminator run ends. -/
def sentSplitAux : List Char → List Char → Bool → List (List Char)
  | [], acc, _ => [acc.reverse]
  | c :: rest, acc, inTerm =>
    if sentTerminators.contains c then
      sentSplitAux rest (c :: acc) true
    else if inTerm then
      acc.reverse :: sentSplitAux rest [c] false
    else
      sentSplitAux rest (c :: acc) false

/-- Modelled from the spec: `sent_tokenize` splits a text into
sentences on terminal punctuation, trimming whitespace. -/
def sent_tokenize (text : String) : List String :=
  (((sentSplitAux text.data [] false).map (fun s => pyStrip (String.mk s)))).filter
    (fun s => !(s == ""))

/-! ## `analyze_clarity` (analyzePresentation.py lines 83-113) -/

structure ClarityReport where
  score : ℚ
  avg_sentence_length : ℚ
  complex_transition_count : ℕ
  unclear_segments : List String
deriving DecidableEq, Repr

def complex_markers : List String :=
  ["however", "although", "nevertheless", "furthermore", "meanwhile"]

/-- `mean(lengths) if lengths else 0` over the word counts of the
sentences of `text`. -/
def clarityAvgLen (text : String) : ℚ :=
  let lengths := (sent_tokenize text).map (fun s => (pySplit s).length)
  if lengths.isEmpty then 0 else (lengths.sum : ℚ) / (lengths.length : ℚ)

/-- `sum(text.lower().count(m) for m in complex_markers)`. -/
def clarityComplexCount (text : String) : ℕ :=
  (complex_markers.map (fun m => strCount (strLower text) m)).sum

/-- The score computation of `analyze_clarity` (lines 96-100 and the
clamp on line 109), as a function of the quantities it reads. -/
def clarity_score_core (avg_length : ℚ) (complex_count num_sentences : ℕ) : ℚ :=
  let s1 : ℚ := 100
  let s2 := if 25 < avg_length then s1 - min 30 ((avg_length - 25) * 2) else s1
  let s3 :=
    if (num_sentences : ℚ) / 3 < (complex_count : ℚ) then s2 - min 20 ((complex_count : ℚ) * 5)
    else s2
  max 0 (min 100 s3)

/-- `analyze_clarity` (analyzePresentation.py lines 83-113). -/
def analyze_clarity (text : String) : ClarityReport :=
  let sentences := sent_tokenize text
  { score := clarity_score_core (clarityAvgLen text) (clarityComplexCount text) sentences.length
    avg_sentence_length := round1 (clarityAvgLen text)
    complex_transition_count := clarityComplexCount text
    unclear_segments :=
      ((sentences.filter (fun s =>
          30 < (pySplit s).length ∨ complex_markers.any (fun m => strHasSub (strLower s) m))).map
        pyStrip).take 3 }

/-! ## `analyze_confidence` (analyzePresentation.py lines 115-158) -/

structure ConfidenceReport where
  score : ℚ
  confidence_markers : ℕ
  uncertainty_markers : ℕ
  uncertain_examples : List String
deriving DecidableEq, Repr

def confidence_marker_list : List String :=
  ["definitely", "certainly", "clearly", "strongly", "confident", "sure"]

def uncertainty_marker_list : List String :=
  ["maybe", "perhaps", "kind of", "sort of", "i think", "i guess", "possibly"]

/-- `sum(text_lower.count(m) for m in confidence_markers)`. -/
def confidentCount (text : String) : ℕ :=
  (confidence_marker_list.map (fun m => strCount (strLower text) m)).sum

/-- `sum(text_lower.count(m) for m in uncertainty_markers)`. -/
def uncertainCount (text : String) : ℕ :=
  (uncertainty_marker_list.map (fun m => strCount (strLower text) m)).sum

/-- The score computation of `analyze_confidence` (lines 128-141 and
the clamp on line 154), as a function of the marker counts and the
positive/negative sentiment components. -/
def confidence_score_core (confident_count uncertain_count : ℕ) (pos neg : ℚ) : ℚ :=
  let s1 : ℚ := 100
  let s2 := if 0 < uncertain_count then s1 - min 40 ((uncertain_count : ℚ) * 10) else s1
  let s3 := if 0 < confident_count then s2 + min 20 ((confident_count : ℚ) * 5) else s2
  let s4 := s3 + (pos - neg) * 20
  max 0 (min 100 s4)

/-- `analyze_confidence` (analyzePresentation.py lines 115-158), with
the tone scores injected as the source receives them. -/
def analyze_confidence (text : String) (tone_scores : List (String × ℚ)) : ConfidenceReport :=
  { score :=
      confidence_score_core (confidentCount text) (uncertainCount text)
        (sgetD tone_scores "Positive") (sgetD tone_scores "Negative")
    confidence_markers := confidentCount text
    uncertainty_markers := uncertainCount text
    uncertain_examples :=
      (((sent_tokenize text).filter (fun s =>
          uncertainty_marker_list.any (fun m => strHasSub (strLower s) m))).map pyStrip).take 3 }

/-! ## Python values and dict access (for the exercise path)

`analyzeExercise.py` reads keys out of the dicts returned by the
analysis helpers; a missing key raises `KeyError`.  The dicts are
embedded as association lists of `Val` and access as `Except`. -/

inductive Val where
  | str : String → Val
  | rat : ℚ → Val
  | nat : ℕ → Val
  | strs : List String → Val
  | dict : List (String × Val) → Val

/-- `d[k]` on a Python dict: `KeyError` when the key is absent. -/
def dictGet (d : List (String × Val)) (k : String) : Except String Val :=
  match d.lookup k with
  | some v => Except.ok v
  | none => Except.error ("KeyError: '" ++ k ++ "'")

/-- Python truthiness of a value (`if not x`). -/
def truthyVal : Val → Bool
  | Val.str s => decide (s ≠ "")
  | Val.rat q => decide (q ≠ 0)
  | Val.nat n => decide (n ≠ 0)
  | Val.strs l => !l.isEmpty
  | Val.dict l => !l.isEmpty

/-- The dict literal `analyze_clarity` returns (analyzePresentation.py
lines 108-113): exactly these four keys, no `"details"` key. -/
def clarityItems (r : ClarityReport) : List (String × Val) :=
  [("score", Val.rat r.score),
   ("avg_sentence_length", Val.rat r.avg_sentence_length),
   ("complex_transition_count", Val.nat r.complex_transition_count),
   ("unclear_segments", Val.strs r.unclear_segments)]

/-- The dict literal `analyze_confidence` returns (analyzePresentation.py
lines 153-158): exactly these four keys, no `"details"` key. -/
def confidenceItems (r : ConfidenceReport) : List (String × Val) :=
  [("score", Val.rat r.score),
   ("confidence_markers", Val.nat r.confidence_markers),
   ("uncertainty_markers", Val.nat r.uncertainty_markers),
   ("uncertain_examples", Val.strs r.uncertain_examples)]

/-! ## Exercise branches (analyzeExercise.py lines 86-139) -/

structure ClarityExerciseResult where
  clarity_score : ℚ
  target_min : ℚ
  details : Val
  status : String

/-- `analyze_clarity_exercise` (analyzeExercise.py lines 86-110).
Constraints are the numeric dict the branch reads
(`constraints.get("min_clarity_score", 70)`).  The feedback strings
(pure string formatting, lines 95-102) are not modelled; they read
only `score` and `min_score` and cannot raise.  The returned dict
(line 104-110) reads `clarity_info["details"]`, a key `analyze_clarity`
never produces. -/
def analyze_clarity_exercise (transcript : String) (constraints : List (String × ℚ)) :
    Except String ClarityExerciseResult :=
  let clarity_info := analyze_clarity transcript
  let min_score := qgetD constraints "min_clarity_score" 70
  let score := clarity_info.score
  let status := if min_score ≤ score then "on_target" else "needs_work"
  match dictGet (clarityItems clarity_info) "details" with
  | Except.error e => Except.error e
  | Except.ok d => Except.ok ⟨score, min_score, d, status⟩

structure ConfidenceExerciseResult where
  confidence_score : ℚ
  target_min : ℚ
  details : Val
  status : String

/-- `analyze_confidence_exercise` (analyzeExercise.py lines 112-139).
The `analyze_tone` Comprehend call is external, so its scores are
injected.  Both the low-score feedback branch (line 130) and the
returned dict (line 136) read `confidence_info["details"]`, a key
`analyze_confidence` never produces; either path raises `KeyError`. -/
def analyze_confidence_exercise (transcript : String) (tone_scores : List (String × ℚ))
    (constraints : List (String × ℚ)) : Except String ConfidenceExerciseResult :=
  let tone_info := analyze_tone tone_scores
  let confidence_info := analyze_confidence transcript tone_info.raw
  let min_score := qgetD constraints "min_confidence_score" 70
  let score := confidence_info.score
  let status := if min_score ≤ score then "on_target" else "needs_work"
  match dictGet (confidenceItems confidence_info) "details" with
  | Except.error e => Except.error e
  | Except.ok d => Except.ok ⟨score, min_score, d, status⟩

/-- The outer `try`/`except` of `lambda_handler` (analyzeExercise.py
lines 289-290): an uncaught exception in a branch becomes a
`statusCode 500` response; a normal return is passed through as 200. -/
def exerciseStatusCode {α : Type} : Except String α → ℕ
  | Except.error _ => 500
  | Except.ok _ => 200

/-! ## Request validation and the FastAPI endpoint (C10) -/

structure ApiResponse where
  statusCode : ℕ
  message : String
deriving DecidableEq, Repr

def valid_focus_areas : List String := ["pace", "fillers", "clarity", "confidence", "tone"]

/-- The validation head of `lambda_handler` (analyzeExercise.py lines
181-202), applied to an already-dict body (`main.py` passes the dict
directly, so the JSON branch on lines 171-178 is skipped and the
`isinstance(body, dict)` check passes).  Returns `some response` when
the request is rejected before any scoring, `none` when validation
passes. -/
def exerciseRequestValidation (body : List (String × Val)) : Option ApiResponse :=
  match body.lookup "recordingUrl" with
  | none => some { statusCode := 400, message := "recordingUrl is required" }
  | some v =>
    if truthyVal v = false then
      some { statusCode := 400, message := "recordingUrl is required" }
    else
      let focus_ok :=
        match body.lookup "focus_area" with
        | some (Val.str f) => valid_focus_areas.contains f
        | some _ => false
        | none => false
      if focus_ok then none
      else some { statusCode := 400, message := "Invalid focus area" }

/-- The event body built by the `/api/analyze-exercise` endpoint
(main.py lines 186-191): exactly the keys `recordingUrl` and
`constraints`; `focus_area` is not included. -/
def buildExerciseEventBody (recording_url : String) (constraints : List (String × Val)) :
    List (String × Val) :=
  [("recordingUrl", Val.str recording_url), ("constraints", Val.dict constraints)]

/-! ## Constraint evaluator (C8)

Modelled from the spec: the repository's constraint evaluator
(`evaluate_constraints`, spec sections 4.7 and 6, with `respected` and
itemized `Violation`s) is not among the files under `src/`; only the
exercise-path variant `analyze_fillers_exercise` is.  The definitions
below follow spec section 4.7: each present constraint key is
evaluated independently, a failed check appends one violation naming
the failed field, and `respected` is true iff no violations were
appended.  Suggestions are static per field. -/

structure Violation where
  field : String
  expected : String
  actual : String
  suggestion : String
deriving DecidableEq, Repr

structure Constraint where
  duration_target : Option ℚ
  duration_tolerance : ℚ
  max_fillers : Option ℕ
  required_phrases : Option (List String)
  forbidden_phrases : Option (List String)
  pace_range : Option (ℚ × ℚ)
  min_confidence_score : Option ℚ

structure MetricsRecord where
  tone : ToneReport
  pace_wpm : ℚ
  word_count : ℕ
  estimated_duration_seconds : ℚ
  filler_words : FillerReport
  clarity : ClarityReport
  confidence : ConfidenceReport

structure ConstraintResult where
  respected : Bool
  violations : List Violation

/-- Decimal-free rendering of a rational for violation records. -/
def ratStr (q : ℚ) : String := toString q.num ++ "/" ++ toString q.den

/-- Modelled from the spec (section 4.7): `evaluate_constraints`. -/
def evaluate_constraints (transcript : String) (metrics : MetricsRecord) (c : Constraint) :
    ConstraintResult :=
  let text_lower := strLower transcript
  let vDuration :=
    match c.duration_target with
    | none => []
    | some target =>
      if c.duration_tolerance < |metrics.estimated_duration_seconds - target| then
        [{ field := "duration", expected := "within tolerance of target duration",
           actual := ratStr metrics.estimated_duration_seconds,
           suggestion := "Adjust the length of your presentation toward the target duration." }]
      else []
  let vFillers :=
    match c.max_fillers with
    | none => []
    | some mx =>
      if mx < metrics.filler_words.total then
        [{ field := "fillers", expected := "total filler count at most " ++ toString mx,
           actual := toString metrics.filler_words.total,
           suggestion := "Practice pausing instead of using filler words." }]
      else []
  let vRequired :=
    match c.required_phrases with
    | none => []
    | some ps =>
      (ps.filter (fun p => !(strHasSub text_lower (strLower p)))).map (fun p =>
        { field := "required_phrases", expected := "phrase present: " ++ p,
          actual := "missing",
          suggestion := "Work the required phrase into your presentation." })
  let vForbidden :=
    match c.forbidden_phrases with
    | none => []
    | some ps =>
      (ps.filter (fun p => strHasSub text_lower (strLower p))).map (fun p =>
        { field := "forbidden_phrases", expected := "phrase absent: " ++ p,
          actual := "present",
          suggestion := "Rephrase to avoid the forbidden phrase." })
  let vPace :=
    match c.pace_range with
    | none => []
    | some r =>
      if metrics.pace_wpm < r.1 ∨ r.2 < metrics.pace_wpm then
        [{ field := "pace", expected := "wpm within range",
           actual := ratStr metrics.pace_wpm,
           suggestion := "Practice keeping your pace inside the target range." }]
      else []
  let vConfidence :=
    match c.min_confidence_score with
    | none => []
    | some thr =>
      if metrics.confidence.score < thr then
        [{ field := "confidence", expected := "confidence score at least " ++ ratStr thr,
           actual := ratStr metrics.confidence.score,
           suggestion := "Replace hedging phrases with more definitive statements." }]
      else []
  let violations := vDuration ++ vFillers ++ vRequired ++ vForbidden ++ vPace ++ vConfidence
  { respected := violations.isEmpty, violations := violations }

/-- A constraint set containing only `max_fillers`. -/
def maxFillersOnly (mx : ℕ) : Constraint :=
  { duration_target := none, duration_tolerance := 3, max_fillers := some mx,
    required_phrases := none, forbidden_phrases := none, pace_range := none,
    min_confidence_score := none }

/-- A metrics record with the given filler total (the other fields are
irrelevant to a `max_fillers`-only constraint set and filled with the
reports of the empty transcript). -/
def metricsWithFillerTotal (total : ℕ) : MetricsRecord :=
  { tone := analyze_tone [], pace_wpm := 0, word_count := 0,
    estimated_duration_seconds := 0,
    filler_words := { total := total, per_filler := [("um", total)] },
    clarity := analyze_clarity "", confidence := analyze_confidence "" [] }

/-! ## Theorems -/

/-- C1: the source claims whole-word matching (3 occurrences of
"like" in "I like, like, totally like this"), but the pattern
`r"\\b" + re.escape(f) + r"\\b"` matches the literal text
`\b<filler>\b`, so every per-filler count on this transcript is 0 —
even though the lower-cased transcript does contain the substring
"like" exactly 3 times. -/
theorem count_filler_words_boundary_regex_bug :
    count_filler_words "I like, like, totally like this" =
      { total := 0,
        per_filler := [("um", 0), ("uh", 0), ("like", 0), ("you know", 0), ("so", 0),
          ("actually", 0)] } ∧
    strCount (strLower "I like, like, totally like this") "like" = 3 := by
  constructor <;> decide

/-- C2: on the empty transcript with no duration, `calculate_pace`
derives a fallback duration of 0 from the word count 0 and the final
division raises `ZeroDivisionError` instead of returning the pace 0
the spec requires; on a nonempty transcript the fallback returns
exactly 150 wpm, never 0. -/
theorem calculate_pace_zero_division_bug :
    calculate_pace "" none = Except.error "ZeroDivisionError: float division by zero" ∧
    calculate_pace "hello world" none = Except.ok 150 := by
  have h0 : (pySplit "").length = 0 := by decide
  have h2 : (pySplit "hello world").length = 2 := by decide
  constructor
  · simp only [calculate_pace, calcPaceFallback, h0]
    norm_num
  · simp only [calculate_pace, calcPaceFallback, h2]
    norm_num [round1, pyRoundHalfEven]

/-- C6: the running total accumulated by the filler loop equals the
sum of the per-filler counts it builds. -/
theorem fillerLoop_total_eq_sum (tl : String) (fs : List String) :
    (fillerLoop tl fs).2 = ((fillerLoop tl fs).1.map Prod.snd).sum := by
  induction fs with
  | nil => simp [fillerLoop]
  | cons f fs ih => simp [fillerLoop, ih]

/-- C6: for every transcript, `FillerReport.total` equals the sum of
the per-filler counts. -/
theorem filler_total_eq_sum (text : String) :
    (count_filler_words text).total =
      ((count_filler_words text).per_filler.map Prod.snd).sum := by
  simpa [count_filler_words] using fillerLoop_total_eq_sum (strLower text) default_fillers

/-- C7: for every transcript the clarity score lies within [0, 100]:
the final value is `max(0, min(100, _))`. -/
theorem clarity_score_bounds (text : String) :
    0 ≤ (analyze_clarity text).score ∧ (analyze_clarity text).score ≤ 100 := by
  simp only [analyze_clarity, clarity_score_core]
  exact ⟨le_max_left _ _, max_le (by norm_num) (min_le_left _ _)⟩

/-- C9: the clarity and confidence exercise branches read a
`"details"` key that `analyze_clarity` and `analyze_confidence` never
produce, so for every transcript, injected sentiment and constraint
set they raise `KeyError` and the handler's outer `try`/`except`
answers statusCode 500. -/
theorem exercise_clarity_confidence_branches_fail (t : String) (ts : List (String × ℚ))
    (c : List (String × ℚ)) :
    analyze_clarity_exercise t c = Except.error "KeyError: 'details'" ∧
    analyze_confidence_exercise t ts c = Except.error "KeyError: 'details'" ∧
    exerciseStatusCode (analyze_clarity_exercise t c) = 500 ∧
    exerciseStatusCode (analyze_confidence_exercise t ts c) = 500 :=
  ⟨rfl, rfl, rfl, rfl⟩

/-- C10: the `/api/analyze-exercise` endpoint builds an event body
holding only `recordingUrl` and `constraints`; since `focus_area` is
missing, the handler's validation rejects every such request with
statusCode 400 "Invalid focus area" before any scoring runs. -/
theorem analyze_exercise_endpoint_rejects (url : String) (cs : List (String × Val))
    (h : url ≠ "") :
    exerciseRequestValidation (buildExerciseEventBody url cs) =
      some { statusCode := 400, message := "Invalid focus area" } := by
  simp [exerciseRequestValidation, buildExerciseEventBody, truthyVal, h, List.lookup]

/-- C10 witness: a concrete request. -/
theorem analyze_exercise_endpoint_rejects_witness :
    exerciseRequestValidation (buildExerciseEventBody "s3://bucket/rec.wav" []) =
      some { statusCode := 400, message := "Invalid focus area" } :=
  analyze_exercise_endpoint_rejects "s3://bucket/rec.wav" [] (by decide)

/-- Helper for C3: the clarity score equals 100 exactly when neither
penalty branch fires — average sentence length at most 25 and
complex-transition count at most one third of the sentence count. -/
theorem clarity_score_core_eq_100_iff (a : ℚ) (c n : ℕ) :
    clarity_score_core a c n = 100 ↔ a ≤ 25 ∧ (c : ℚ) ≤ (n : ℚ) / 3 := by
  simp only [clarity_score_core]
  rcases le_or_lt a 25 with ha | ha
  · rcases le_or_lt (c : ℚ) ((n : ℚ) / 3) with hc | hc
    · rw [if_neg (not_lt.mpr hc), if_neg (not_lt.mpr ha)]
      exact iff_of_true (by norm_num) ⟨ha, hc⟩
    · have hcpos : 0 < c := by
        have : (0 : ℚ) < (c : ℚ) := lt_of_le_of_lt (by positivity) hc
        exact_mod_cast this
      have hc1 : (1 : ℚ) ≤ (c : ℚ) := by exact_mod_cast hcpos
      rw [if_pos hc, if_neg (not_lt.mpr ha)]
      refine iff_of_false ?_ (fun hh => absurd hh.2 (not_le.mpr hc))
      have hm2 : (5 : ℚ) ≤ min 20 ((c : ℚ) * 5) := le_min (by norm_num) (by linarith)
      have hlt : max 0 (min 100 (100 - min 20 ((c : ℚ) * 5))) < 100 :=
        max_lt (by norm_num) (lt_of_le_of_lt (min_le_right _ _) (by linarith))
      exact ne_of_lt hlt
  · rcases le_or_lt (c : ℚ) ((n : ℚ) / 3) with hc | hc
    · rw [if_neg (not_lt.mpr hc), if_pos ha]
      refine iff_of_false ?_ (fun hh => absurd hh.1 (not_le.mpr ha))
      have hm1 : (0 : ℚ) < min 30 ((a - 25) * 2) := lt_min (by norm_num) (by linarith)
      have hlt : max 0 (min 100 (100 - min 30 ((a - 25) * 2))) < 100 :=
        max_lt (by norm_num) (lt_of_le_of_lt (min_le_right _ _) (by linarith))
      exact ne_of_lt hlt
    · have hcpos : 0 < c := by
        have : (0 : ℚ) < (c : ℚ) := lt_of_le_of_lt (by positivity) hc
        exact_mod_cast this
      have hc1 : (1 : ℚ) ≤ (c : ℚ) := by exact_mod_cast hcpos
      rw [if_pos hc, if_pos ha]
      refine iff_of_false ?_ (fun hh => absurd hh.1 (not_le.mpr ha))
      have hm1 : (0 : ℚ) < min 30 ((a - 25) * 2) := lt_min (by norm_num) (by linarith)
      have hm2 : (5 : ℚ) ≤ min 20 ((c : ℚ) * 5) := le_min (by norm_num) (by linarith)
      have hlt : max 0 (min 100 (100 - min 30 ((a - 25) * 2) - min 20 ((c : ℚ) * 5))) < 100 :=
        max_lt (by norm_num) (lt_of_le_of_lt (min_le_right _ _) (by linarith))
      exact ne_of_lt hlt

/-- C3 counterexample: on "However bad. It is fine. We go on." the
clarity score is 100 although the transcript contains one
complex-transition marker ("however"): the density penalty only fires
when the marker count exceeds one third of the sentence count. -/
theorem clarity_100_with_marker :
    ¬ ((analyze_clarity "However bad. It is fine. We go on.").score = 100 →
        (analyze_clarity "However bad. It is fine. We go on.").complex_transition_count = 0) := by
  have hs : (sent_tokenize "However bad. It is fine. We go on.").length = 3 := by decide
  have hl : (sent_tokenize "However bad. It is fine. We go on.").map
      (fun s => (pySplit s).length) = [2, 3, 3] := by decide
  have hcc : clarityComplexCount "However bad. It is fine. We go on." = 1 := by decide
  have ha : clarityAvgLen "However bad. It is fine. We go on." = 8 / 3 := by
    simp only [clarityAvgLen, hl]
    norm_num
  have hscore : (analyze_clarity "However bad. It is fine. We go on.").score = 100 := by
    simp only [analyze_clarity, ha, hcc, hs]
    norm_num [clarity_score_core]
  intro h
  have h0 := h hscore
  simp only [analyze_clarity, hcc] at h0
  exact absurd h0 one_ne_zero

/-- C3 amended: for every transcript, the clarity score equals 100 if
and only if the average sentence length is at most 25 words and the
complex-transition count is at most one third of the sentence count
(so a transcript may score 100 while containing complex-transition
markers, and below-optimal-band averages are not penalized). -/
theorem clarity_score_100_iff (text : String) :
    (analyze_clarity text).score = 100 ↔
      clarityAvgLen text ≤ 25 ∧
        (clarityComplexCount text : ℚ) ≤ ((sent_tokenize text).length : ℚ) / 3 := by
  simpa [analyze_clarity] using
    clarity_score_core_eq_100_iff (clarityAvgLen text) (clarityComplexCount text)
      (sent_tokenize text).length

/-- Helper for C4: clamping to [0, 100] is monotone. -/
theorem clamp_mono {a b : ℚ} (h : a ≤ b) : max 0 (min 100 a) ≤ max 0 (min 100 b) :=
  max_le_max le_rfl (min_le_min le_rfl h)

/-- Helper for C4: one more hedging occurrence never increases the
confidence score. -/
theorem confidence_core_anti_uncertain (cc u : ℕ) (p n : ℚ) :
    confidence_score_core cc (u + 1) p n ≤ confidence_score_core cc u p n := by
  simp only [confidence_score_core]
  apply clamp_mono
  have f1 : min (40 : ℚ) ((u : ℚ) * 10) ≤ min 40 (((u : ℚ) + 1) * 10) :=
    min_le_min le_rfl (by linarith [Nat.cast_nonneg (α := ℚ) u])
  have f2 : (0 : ℚ) ≤ min 40 (((u : ℚ) + 1) * 10) :=
    le_min (by norm_num) (by positivity)
  split_ifs with h1 h2 h3 h4 <;> push_cast <;> linarith

/-- Helper for C4: one more assertive occurrence never decreases the
confidence score. -/
theorem confidence_core_mono_confident (cc u : ℕ) (p n : ℚ) :
    confidence_score_core cc u p n ≤ confidence_score_core (cc + 1) u p n := by
  simp only [confidence_score_core]
  apply clamp_mono
  have f1 : min (20 : ℚ) ((cc : ℚ) * 5) ≤ min 20 (((cc : ℚ) + 1) * 5) :=
    min_le_min le_rfl (by linarith [Nat.cast_nonneg (α := ℚ) cc])
  have f2 : (0 : ℚ) ≤ min 20 (((cc : ℚ) + 1) * 5) :=
    le_min (by norm_num) (by positivity)
  split_ifs with h1 h2 h3 h4 <;> push_cast <;> linarith

/-- C4: the confidence score is monotone in the marker counts — for a
fixed injected sentiment distribution, a transcript with one more
hedging occurrence (and the same assertive count) never scores
higher, and a transcript with one more assertive occurrence (and the
same hedging count) never scores lower. -/
theorem confidence_score_monotone :
    (∀ t1 t2 ts, uncertainCount t2 = uncertainCount t1 + 1 →
      confidentCount t2 = confidentCount t1 →
      (analyze_confidence t2 ts).score ≤ (analyze_confidence t1 ts).score) ∧
    (∀ t1 t2 ts, confidentCount t2 = confidentCount t1 + 1 →
      uncertainCount t2 = uncertainCount t1 →
      (analyze_confidence t1 ts).score ≤ (analyze_confidence t2 ts).score) := by
  constructor
  · intro t1 t2 ts hu hc
    simp only [analyze_confidence, hu, hc]
    exact confidence_core_anti_uncertain _ _ _ _
  · intro t1 t2 ts hc hu
    simp only [analyze_confidence, hc, hu]
    exact confidence_core_mono_confident _ _ _ _

/-- C4 witness: "maybe" has one more hedging marker than the empty
transcript and "sure" one more assertive marker, with the other count
unchanged. -/
theorem confidence_score_monotone_witness :
    (analyze_confidence "maybe" []).score ≤ (analyze_confidence "" []).score ∧
    (analyze_confidence "" []).score ≤ (analyze_confidence "sure" []).score :=
  ⟨confidence_score_monotone.1 "" "maybe" [] (by decide) (by decide),
   confidence_score_monotone.2 "" "sure" [] (by decide) (by decide)⟩

/-- C5: the tone classification is a pure function of the four
sentiment components: "objective" when the neutral component is at
least 0.60, else "subjective" when the maximum non-neutral component
exceeds neutral by more than 0.15, else "balanced"; on the two
concrete distributions of the spec it answers "objective" and
"subjective". -/
theorem classify_tone_contract :
    (∀ s, (analyze_tone s).classification =
      (if 0.60 ≤ sgetD s "Neutral" then "objective"
       else if 0.15 <
           max (sgetD s "Positive") (max (sgetD s "Negative") (sgetD s "Mixed")) -
             sgetD s "Neutral" then "subjective"
       else "balanced")) ∧
    (analyze_tone [("Neutral", 0.7), ("Positive", 0.2), ("Negative", 0.05),
      ("Mixed", 0.05)]).classification = "objective" ∧
    (analyze_tone [("Positive", 0.9), ("Negative", 0.05), ("Neutral", 0.03),
      ("Mixed", 0.02)]).classification = "subjective" := by
  refine ⟨fun s => rfl, ?_, ?_⟩
  · simp only [analyze_tone, toneClassification]
    rw [show sgetD [("Neutral", 0.7), ("Positive", 0.2), ("Negative", 0.05),
      ("Mixed", 0.05)] "Neutral" = 0.7 from rfl]
    norm_num
  · simp only [analyze_tone, toneClassification]
    rw [show sgetD [("Positive", 0.9), ("Negative", 0.05), ("Neutral", 0.03),
          ("Mixed", 0.02)] "Neutral" = 0.03 from rfl,
        show sgetD [("Positive", 0.9), ("Negative", 0.05), ("Neutral", 0.03),
          ("Mixed", 0.02)] "Positive" = 0.9 from rfl,
        show sgetD [("Positive", 0.9), ("Negative", 0.05), ("Neutral", 0.03),
          ("Mixed", 0.02)] "Negative" = 0.05 from rfl,
        show sgetD [("Positive", 0.9), ("Negative", 0.05), ("Neutral", 0.03),
          ("Mixed", 0.02)] "Mixed" = 0.02 from rfl]
    norm_num

/-- C8 (constraint evaluator modelled from the spec): with a
constraint set containing only `max_fillers`, the check fails exactly
when the filler total exceeds the maximum — the violation list is one
violation on the "fillers" field in that case and empty otherwise,
and `respected` is the complement; in particular a filler total of 5
against `max_fillers = 3` yields exactly one violation on "fillers"
with `respected = false`, and a total of 2 yields `respected = true`
with no violations. -/
theorem evaluate_constraints_max_fillers :
    (∀ t m mx, ((evaluate_constraints t m (maxFillersOnly mx)).respected = true ↔
      m.filler_words.total ≤ mx)) ∧
    (∀ t m mx, (evaluate_constraints t m (maxFillersOnly mx)).violations.map Violation.field =
      (if mx < m.filler_words.total then ["fillers"] else [])) ∧
    (evaluate_constraints "" (metricsWithFillerTotal 5) (maxFillersOnly 3)).respected = false ∧
    ((evaluate_constraints "" (metricsWithFillerTotal 5) (maxFillersOnly 3)).violations.map
      Violation.field) = ["fillers"] ∧
    (evaluate_constraints "" (metricsWithFillerTotal 2) (maxFillersOnly 3)).respected = true ∧
    (evaluate_constraints "" (metricsWithFillerTotal 2) (maxFillersOnly 3)).violations = [] := by
  refine ⟨?_, ?_, by decide, by decide, by decide, by decide⟩
  · intro t m mx
    simp only [evaluate_constraints, maxFillersOnly]
    split_ifs with h
    · simp [Nat.not_le.mpr h]
    · simp [Nat.not_lt.mp h]
  · intro t m mx
    simp only [evaluate_constraints, maxFillersOnly]
    split_ifs with h <;> simp

end DubHacks
